import Mathlib

/-!
Verification of the upload-identifier cache of the aoe2-telegram-bot
repository, embedded shallowly from `src/aoe2_telegram_bot/_files.py`
(module state `_files_id_cache`, operations `load_cache`, `get_file_id`,
`set_file_id`, `clear_file_id_db`, `get_all_file_ids`) and from the
`send_audio` flow of `src/aoe2_telegram_bot/_handlers.py`.

The Python module state is the pair of the in-memory dict
`_files_id_cache : dict[str, str]` and the persisted JSON store at the
path `files_id_db`.  We model the dict as an association list in
insertion order (Python dicts preserve insertion order; keys are unique),
and the store as `Option FileContents`: `none` when the file does not
exist, `some c` describing its contents.
-/

namespace Aoe2Bot

/-- A Python `dict[str, str]`, as an association list in insertion order.
Python guarantees unique keys; well-formedness is tracked by `dictWF`. -/
abbrev PyDict := List (String × String)

/-- Lookup `d.get(k)`: the value at key `k`, or `none` (Python `None`). -/
def dictGet (d : PyDict) (k : String) : Option String :=
  match d with
  | [] => none
  | (k', v) :: rest => if k' = k then some v else dictGet rest k

/-- Assignment `d[k] = v`: replaces the value at an existing key in place
(insertion order kept), otherwise appends the new pair at the end. -/
def dictInsert (d : PyDict) (k v : String) : PyDict :=
  match d with
  | [] => [(k, v)]
  | (k', v') :: rest =>
      if k' = k then (k, v) :: rest else (k', v') :: dictInsert rest k v

/-- The method `d.update(u)` for a dict argument `u`: assigns each pair of
`u` into `d`, in order. -/
def dictUpdate (d : PyDict) : PyDict → PyDict
  | [] => d
  | (k, v) :: rest => dictUpdate (dictInsert d k v) rest

/-- Unique keys: the invariant every Python dict satisfies. -/
def dictWF (d : PyDict) : Prop := (d.map Prod.fst).Nodup

instance (d : PyDict) : Decidable (dictWF d) := by
  unfold dictWF; infer_instance

/-- A `pathlib.Path`, reduced to what the cache observes: the directory
components and the final component `name` (the base name).  `get_file_id`
and `set_file_id` key the cache by `file_path.name` only. -/
structure PyPath where
  parent : List String
  name : String
deriving DecidableEq, Repr

/-- The exceptions relevant to `load_cache`: `json.JSONDecodeError`
(raised by `json.load` on text that is not valid JSON), `ValueError`
(raised by `dict.update` on an iterable whose elements are not
key-value pairs, e.g. a non-empty string), and `TypeError` (raised by
`dict.update` on a non-iterable argument, e.g. an int).  The `except`
clause of `load_cache` lists `(json.JSONDecodeError, ValueError)`;
`JSONDecodeError` is a subclass of `ValueError`, and `TypeError` is not. -/
inductive PyExc
  | jsonDecodeError
  | valueError
  | typeError
deriving DecidableEq, Repr

/-- The JSON values a store file can parse to, as far as the cache code
distinguishes them: an object with string values (the expected shape), a
string, or a number. -/
inductive JsonValue
  | obj (m : PyDict)
  | str (s : String)
  | num (n : Int)
deriving DecidableEq, Repr

/-- Contents of the persisted store file: either text that parses as JSON
to the value `v`, or text that is not valid JSON (including the empty
file). -/
inductive FileContents
  | json (v : JsonValue)
  | notJson (raw : String)
deriving DecidableEq, Repr

/-- The call `json.load(f)`: returns the parsed value, or raises
`json.JSONDecodeError` when the text is not valid JSON. -/
def json_load : FileContents → Except PyExc JsonValue
  | .json v => .ok v
  | .notJson _ => .error .jsonDecodeError

/-- The call `d.update(v)` for a parsed JSON value `v`, with CPython's
semantics: a dict argument merges its pairs in; a string argument is
iterated per character, and each one-character element fails the
length-two check with `ValueError` (the empty string iterates zero
elements and succeeds, leaving `d` unchanged); a number is not iterable,
raising `TypeError`. -/
def dict_update_json (d : PyDict) : JsonValue → Except PyExc PyDict
  | .obj m => .ok (dictUpdate d m)
  | .str s => if s.isEmpty then .ok d else .error .valueError
  | .num _ => .error .typeError

/-- The cache module's state: the in-memory dict `_files_id_cache` and the
persisted store `files_id_db` (`none` when no file exists on disk). -/
structure CacheState where
  mem : PyDict
  disk : Option FileContents
deriving DecidableEq, Repr

/-- Operation `load_cache()`: returns immediately when the in-memory dict is
truthy (non-empty) or the store file does not exist; otherwise opens the
file, parses it with `json.load` and merges the result in with
`_files_id_cache.update(...)` inside a `try` whose `except` clause
catches `json.JSONDecodeError` and `ValueError` (comment in the source:
corrupted or empty file, start fresh) and does nothing.  Any other
exception, such as `TypeError`, propagates to the caller. -/
def load_cache (s : CacheState) : Except PyExc CacheState :=
  if ¬ s.mem.isEmpty ∨ s.disk.isNone then .ok s
  else
    match s.disk with
    | none => .ok s
    | some fc =>
        match json_load fc >>= fun v => dict_update_json s.mem v with
        | .ok m => .ok { s with mem := m }
        | .error .jsonDecodeError => .ok s
        | .error .valueError => .ok s
        | .error e => .error e

/-- Operation `get_file_id(file_path)`: `return _files_id_cache.get(file_path.name)`.
A read-only dict lookup keyed by the base name. -/
def get_file_id (s : CacheState) (file_path : PyPath) : Option String :=
  dictGet s.mem file_path.name

/-- Operation `get_file_id` in explicit state-and-exception passing form, the shape
every Python call has in this embedding: the body is a single `return` of
a dict `.get` with default `None`, so it raises no exception, performs no
assignment to `_files_id_cache`, no file input or output, and no call to
`load_cache`; the module state it leaves behind is the one it received. -/
def get_file_id_run (s : CacheState) (file_path : PyPath) :
    Except PyExc (Option String × CacheState) :=
  .ok (get_file_id s file_path, s)

/-- Operation `set_file_id(file_path, file_id)`: assigns
`_files_id_cache[file_path.name] = file_id`, creates the parent directory
if absent, then rewrites the store file with `json.dump` of the entire
in-memory dict. -/
def set_file_id (s : CacheState) (file_path : PyPath) (file_id : String) :
    CacheState :=
  let mem := dictInsert s.mem file_path.name file_id
  { mem := mem, disk := some (.json (.obj mem)) }

/-- Operation `clear_file_id_db()`: `_files_id_cache.clear()` then
`files_id_db.unlink(missing_ok=True)` — empties the dict and deletes the
store file; a missing file is not an error, so the operation is total. -/
def clear_file_id_db (_s : CacheState) : CacheState :=
  { mem := [], disk := none }

/-- Operation `get_all_file_ids()`: `return _files_id_cache.copy()` — the entries of
the in-memory dict, as a fresh dict object (see `Heap.get_all_file_ids`
for the object-identity side of the copy). -/
def get_all_file_ids (s : CacheState) : PyDict :=
  s.mem

/-- A sequence of `set_file_id` calls applied in order. -/
def applyPuts (s : CacheState) : List (PyPath × String) → CacheState
  | [] => s
  | (p, i) :: rest => applyPuts (set_file_id s p i) rest

/-!
Object-identity model for `get_all_file_ids`.  The Python line
`return _files_id_cache.copy()` returns a reference to a freshly
allocated dict object holding the same entries, not a reference to the
module's own dict.  To state that the caller cannot reach the cache's
internal state through the returned value, we make dict objects heap
cells and references cell indices: `.copy()` allocates a new cell.
-/

/-- A heap of Python dict objects; a reference is an index into `cells`. -/
structure Heap where
  cells : List PyDict
deriving Repr

/-- Dereference: the dict object at reference `r`. -/
def Heap.read (h : Heap) (r : Nat) : PyDict :=
  h.cells.getD r []

/-- Overwrite the dict object at reference `r` — an arbitrary in-place
mutation of that one object (item assignment, `update`, `clear`, ...). -/
def Heap.write (h : Heap) (r : Nat) (d : PyDict) : Heap :=
  ⟨h.cells.set r d⟩

/-- Allocate a fresh dict object with contents `d`; returns the new heap
and a reference to the new object. -/
def Heap.alloc (h : Heap) (d : PyDict) : Heap × Nat :=
  (⟨h.cells ++ [d]⟩, h.cells.length)

/-- Operation `get_all_file_ids()` over the heap model: `_files_id_cache.copy()`
allocates a fresh dict with the same entries as the cache's dict at
reference `cacheRef` and returns a reference to the fresh object. -/
def Heap.get_all_file_ids (h : Heap) (cacheRef : Nat) : Heap × Nat :=
  h.alloc (h.read cacheRef)

/-!
Trace model of the `send_audio` flow of `_handlers.py`.  The calls the
flow makes — the chat action, the cache lookup, the platform send, the
cache write — are recorded as events in order; the platform send is an
oracle `sendRes`: `.ok i` means `await context.bot.send_audio(...)`
returned a message whose `audio.file_id` is `i`, `.error ()` means the
awaited call raised, which propagates out of `send_audio` uncaught.
-/

/-- What is handed to `context.bot.send_audio` as `audio`: a local file
path (an upload) or a remote file identifier (reuse of a prior upload). -/
inductive Payload
  | file (p : PyPath)
  | fid (i : String)
deriving DecidableEq, Repr

/-- Events of one `send_audio` call, in program order. -/
inductive Ev
  /-- `send_message` of the no-audio error text, then return. -/
  | sentNoAudioMsg
  /-- `send_chat_action(RECORD_VOICE)`. -/
  | chatAction
  /-- `get_file_id(audio_file)` consulted, with its result. -/
  | cacheLookup (name : String) (result : Option String)
  /-- the awaited `bot.send_audio` completed successfully with payload. -/
  | audioSent (payload : Payload)
  /-- `set_file_id(audio_file, new_file_id)` ran. -/
  | cachePut (name : String) (i : String)
deriving DecidableEq, Repr

/-- Python truthiness of an `Optional[str]`: `None` and the empty string
are falsy, any other string is truthy. -/
def pyTruthy : Option String → Bool
  | none => false
  | some s => ¬ s.isEmpty

/-- Result of one `send_audio` call: final cache state, event trace, and
whether the call terminated by an uncaught exception from the awaited
platform send. -/
structure SendOutcome where
  state : CacheState
  trace : List Ev
  raised : Bool
deriving Repr

/-- Second half of `send_audio`, from `message = await
context.bot.send_audio(...)` on: if the awaited send raises, the
exception propagates and nothing further runs; on success, the guard
`if audio_file and not file_id and not get_file_id(audio_file):` decides
whether `set_file_id(audio_file, message.audio.file_id)` runs. -/
def send_and_cache (s : CacheState) (audio_file : Option PyPath)
    (file_id : Option String) (payload : Payload) (tr : List Ev)
    (sendRes : Except Unit String) : SendOutcome :=
  match sendRes with
  | .error _ => ⟨s, tr, true⟩
  | .ok newId =>
      let tr := tr ++ [.audioSent payload]
      match audio_file with
      | some af =>
          if ¬ pyTruthy file_id ∧ ¬ pyTruthy (get_file_id s af) then
            ⟨set_file_id s af newId, tr ++ [.cachePut af.name newId], false⟩
          else ⟨s, tr, false⟩
      | none => ⟨s, tr, false⟩

/-- Flow `send_audio(update, context, audio_file, file_id)`: when both
arguments are `None`, sends the no-audio error message and returns; else
sends the chat action, then picks `audio_to_send`: the `file_id` when it
is truthy, otherwise (when `audio_file` is set) the cached identifier
from `get_file_id(audio_file)` when that is truthy (the source tests
`if cached_file_id:`), else the file itself for
upload; when `audio_file` is `None` with a falsy non-`None` `file_id`,
logs an error and returns.  Then `send_and_cache` performs the awaited
send and the post-send caching. -/
def send_audio (s : CacheState) (audio_file : Option PyPath)
    (file_id : Option String) (sendRes : Except Unit String) : SendOutcome :=
  if audio_file.isNone ∧ file_id.isNone then
    ⟨s, [.sentNoAudioMsg], false⟩
  else
    match file_id with
    | some i =>
        if ¬ i.isEmpty then
          send_and_cache s audio_file file_id (.fid i) [.chatAction] sendRes
        else
          match audio_file with
          | none => ⟨s, [.chatAction], false⟩
          | some af =>
              let cached := get_file_id s af
              let payload := if pyTruthy cached
                then Payload.fid (cached.getD "") else Payload.file af
              send_and_cache s audio_file file_id payload
                [.chatAction, .cacheLookup af.name cached] sendRes
    | none =>
        match audio_file with
        | none => ⟨s, [.chatAction], false⟩
        | some af =>
            let cached := get_file_id s af
            let payload := if pyTruthy cached
              then Payload.fid (cached.getD "") else Payload.file af
            send_and_cache s audio_file file_id payload
              [.chatAction, .cacheLookup af.name cached] sendRes

/-- Holds when no `cachePut` event occurs before the first `audioSent`
event of the trace (in particular when there is no `cachePut` at all). -/
def noPutBeforeSend : List Ev → Bool
  | [] => true
  | .cachePut _ _ :: _ => false
  | .audioSent _ :: _ => true
  | _ :: rest => noPutBeforeSend rest

/-- Holds when no upload (`audioSent` with a file payload) occurs before
the first cache lookup of the trace. -/
def noUploadBeforeLookup : List Ev → Bool
  | [] => true
  | .audioSent (.file _) :: _ => false
  | .cacheLookup _ _ :: _ => true
  | _ :: rest => noUploadBeforeLookup rest

/-! Lemmas about the dict model. -/

theorem dictGet_dictInsert_self (d : PyDict) (k v : String) :
    dictGet (dictInsert d k v) k = some v := by
  induction d with
  | nil => simp [dictInsert, dictGet]
  | cons kv rest ih =>
      by_cases h : kv.1 = k
      · simp [dictInsert, h, dictGet]
      · simp [dictInsert, h, dictGet, ih]

theorem dictGet_eq_none_of_not_mem (d : PyDict) (k : String)
    (h : k ∉ d.map Prod.fst) : dictGet d k = none := by
  induction d with
  | nil => rfl
  | cons kv rest ih =>
      simp only [List.map_cons, List.mem_cons] at h
      push_neg at h
      simp [dictGet, Ne.symm h.1, ih h.2]

theorem map_fst_dictInsert (d : PyDict) (k v : String) :
    (dictInsert d k v).map Prod.fst =
      if k ∈ d.map Prod.fst then d.map Prod.fst
      else d.map Prod.fst ++ [k] := by
  induction d with
  | nil => simp [dictInsert]
  | cons kv rest ih =>
      by_cases h : kv.1 = k
      · simp [dictInsert, h]
      · by_cases h2 : k ∈ rest.map Prod.fst <;>
          simp [dictInsert, h, ih, h2, Ne.symm h]

theorem dictWF_dictInsert (d : PyDict) (k v : String) (h : dictWF d) :
    dictWF (dictInsert d k v) := by
  unfold dictWF at *
  rw [map_fst_dictInsert]
  by_cases hk : k ∈ d.map Prod.fst
  · simpa [hk]
  · simp [hk, List.nodup_append, h, List.disjoint_singleton]

theorem dictInsert_of_not_mem (d : PyDict) (k v : String)
    (h : k ∉ d.map Prod.fst) : dictInsert d k v = d ++ [(k, v)] := by
  induction d with
  | nil => rfl
  | cons kv rest ih =>
      simp only [List.map_cons, List.mem_cons] at h
      push_neg at h
      simp [dictInsert, Ne.symm h.1, ih h.2]

theorem dictUpdate_append (m : PyDict) :
    ∀ d : PyDict, (d.map Prod.fst ++ m.map Prod.fst).Nodup →
      dictUpdate d m = d ++ m := by
  induction m with
  | nil => intro d _; simp [dictUpdate]
  | cons kv rest ih =>
      intro d h
      obtain ⟨k, v⟩ := kv
      simp only [List.map_cons] at h
      have hk : k ∉ d.map Prod.fst := by
        rw [List.nodup_append] at h
        exact fun hm => h.2.2 hm (List.mem_cons_self _ _)
      have hstep : dictInsert d k v = d ++ [(k, v)] :=
        dictInsert_of_not_mem d k v hk
      have h' : ((d ++ [(k, v)]).map Prod.fst ++ rest.map Prod.fst).Nodup := by
        simpa [List.append_assoc] using h
      calc dictUpdate d ((k, v) :: rest)
          = dictUpdate (d ++ [(k, v)]) rest := by rw [dictUpdate, hstep]
        _ = (d ++ [(k, v)]) ++ rest := ih (d ++ [(k, v)]) h'
        _ = d ++ ((k, v) :: rest) := by simp

theorem dictUpdate_nil_of_WF (m : PyDict) (h : dictWF m) :
    dictUpdate [] m = m := by
  simpa using dictUpdate_append m [] (by simpa [dictWF] using h)

theorem filter_eq_nil_of_not_mem (d : PyDict) (k : String)
    (h : k ∉ d.map Prod.fst) :
    d.filter (fun kv => kv.1 == k) = [] := by
  induction d with
  | nil => rfl
  | cons kv rest ih =>
      simp only [List.map_cons, List.mem_cons] at h
      push_neg at h
      have hb : (kv.1 == k) = false := by simp [Ne.symm h.1]
      simp [List.filter_cons, hb, ih h.2]

theorem filter_dictInsert_self (d : PyDict) (k v : String) (h : dictWF d) :
    (dictInsert d k v).filter (fun kv => kv.1 == k) = [(k, v)] := by
  induction d with
  | nil => simp [dictInsert]
  | cons kv' rest ih =>
      unfold dictWF at h
      simp only [List.map_cons, List.nodup_cons] at h
      by_cases hk : kv'.1 = k
      · have : k ∉ rest.map Prod.fst := hk ▸ h.1
        simp [dictInsert, hk, List.filter, filter_eq_nil_of_not_mem rest k this]
      · simp [dictInsert, hk, List.filter, ih h.2]

/-! Lemmas about the heap model. -/

theorem getD_append_length (l : List PyDict) (d x : PyDict) :
    (l ++ [d]).getD l.length x = d := by
  induction l with
  | nil => rfl
  | cons a t ih => simp [ih]

theorem getD_append_lt (l : List PyDict) (d x : PyDict) (r : Nat)
    (hr : r < l.length) : (l ++ [d]).getD r x = l.getD r x := by
  induction l generalizing r with
  | nil => exact absurd hr (by simp)
  | cons a t ih =>
      cases r with
      | zero => rfl
      | succ r => simpa using ih r (by simpa using hr)

theorem getD_set_ne (l : List PyDict) (n r : Nat) (hne : r ≠ n)
    (d x : PyDict) : (l.set n d).getD r x = l.getD r x := by
  induction l generalizing n r with
  | nil => rfl
  | cons a t ih =>
      cases n with
      | zero =>
          cases r with
          | zero => exact absurd rfl hne
          | succ r => simp
      | succ n =>
          cases r with
          | zero => simp
          | succ r => simpa using ih n r (by omega)

theorem read_write_after_alloc (h : Heap) (r : Nat) (d d' : PyDict)
    (hr : r < h.cells.length) :
    (((h.alloc d).1).write (h.alloc d).2 d').read r = h.read r := by
  unfold Heap.alloc Heap.write Heap.read
  simp only
  rw [getD_set_ne _ _ _ (Nat.ne_of_lt hr)]
  exact getD_append_lt _ _ _ _ hr

/-! Theorems about the claims of the specification. -/

/-- C1 (round-trip persistence): for every well-formed cache state, path
and identifier, after `set_file_id` the store left on disk is such that a
fresh process (empty in-memory mapping, same disk) running `load_cache`
succeeds and `get_file_id` on the same path returns the identifier. -/
theorem round_trip_persistence (s : CacheState) (p : PyPath) (i : String)
    (h : dictWF s.mem) :
    ∃ s2 : CacheState,
      load_cache { mem := [], disk := (set_file_id s p i).disk } = .ok s2 ∧
      get_file_id s2 p = some i := by
  have hwf : dictWF (dictInsert s.mem p.name i) := dictWF_dictInsert _ _ _ h
  refine ⟨{ mem := dictInsert s.mem p.name i,
            disk := (set_file_id s p i).disk }, ?_, ?_⟩
  · simp [load_cache, set_file_id, json_load, dict_update_json,
      Bind.bind, Except.bind, dictUpdate_nil_of_WF _ hwf]
  · exact dictGet_dictInsert_self _ _ _

theorem round_trip_persistence_witness :
    ∃ s2 : CacheState,
      load_cache ⟨[], (set_file_id ⟨[], none⟩ ⟨["audio"], "Celts.mp3"⟩ "ABC123").disk⟩ = .ok s2 ∧
      get_file_id s2 ⟨["audio"], "Celts.mp3"⟩ = some "ABC123" :=
  round_trip_persistence ⟨[], none⟩ ⟨["audio"], "Celts.mp3"⟩ "ABC123" (by decide)

/-- C2 (memory and disk agreement): after `set_file_id` the persisted
store holds exactly the JSON object of the entire in-memory mapping (a
full rewrite), and after `clear_file_id_db` the in-memory mapping is
empty and the store file does not exist. -/
theorem mem_disk_agreement (s : CacheState) (p : PyPath) (i : String) :
    (set_file_id s p i).disk
      = some (.json (.obj (set_file_id s p i).mem)) ∧
    (clear_file_id_db s).mem = [] ∧ (clear_file_id_db s).disk = none :=
  ⟨rfl, rfl, rfl⟩

/-- C3 counterexample: a store file whose contents are the JSON number
`123` cannot be parsed as the expected mapping, yet `load_cache` on an
empty in-memory mapping raises: `json.load` succeeds with the int `123`,
`_files_id_cache.update(123)` raises `TypeError` (not iterable), and the
except clause catches only `json.JSONDecodeError` and `ValueError`, so
the `TypeError` propagates to the caller. -/
theorem corrupt_store_typeerror :
    load_cache { mem := [], disk := some (.json (.num 123)) }
      = .error .typeError := rfl

/-- C3 amended: `load_cache` on an empty in-memory mapping tolerates
store contents that are not valid JSON (e.g. the literal text
`not valid json`) or that parse to a JSON string — it completes without
raising and leaves the mapping empty — while contents parsing to a
non-iterable JSON value such as a number instead raise an uncaught
`TypeError`. -/
theorem corrupt_store_tolerance (c : FileContents)
    (h : (∃ raw, c = .notJson raw) ∨ (∃ str, c = .json (.str str))) :
    load_cache { mem := [], disk := some c }
      = .ok { mem := [], disk := some c } := by
  rcases h with ⟨raw, rfl⟩ | ⟨str, rfl⟩
  · simp [load_cache, json_load, Bind.bind, Except.bind]
  · by_cases hs : str.isEmpty <;>
      simp [load_cache, json_load, dict_update_json, Bind.bind,
        Except.bind, hs, dictUpdate]

theorem corrupt_store_tolerance_witness :
    load_cache { mem := [], disk := some (.notJson "not valid json") }
      = .ok { mem := [], disk := some (.notJson "not valid json") } :=
  corrupt_store_tolerance (.notJson "not valid json")
    (Or.inl ⟨"not valid json", rfl⟩)

/-- C4 (idempotent overwrite): for a well-formed state, `set_file_id`
twice on one path leaves `get_file_id` at the second identifier, the
store equal to the whole mapping, and the mapping (hence the store)
holding exactly one entry for that base name, mapped to the second
identifier. -/
theorem idempotent_overwrite (s : CacheState) (p : PyPath)
    (i1 i2 : String) (h : dictWF s.mem) :
    get_file_id (set_file_id (set_file_id s p i1) p i2) p = some i2 ∧
    (set_file_id (set_file_id s p i1) p i2).disk
      = some (.json (.obj (set_file_id (set_file_id s p i1) p i2).mem)) ∧
    (set_file_id (set_file_id s p i1) p i2).mem.filter
      (fun kv => kv.1 == p.name) = [(p.name, i2)] := by
  refine ⟨?_, rfl, ?_⟩
  · simp [get_file_id, set_file_id, dictGet_dictInsert_self]
  · exact filter_dictInsert_self _ _ _ (dictWF_dictInsert _ _ _ h)

theorem idempotent_overwrite_witness :
    get_file_id (set_file_id (set_file_id { mem := [], disk := none }
        ⟨[], "a.mp3"⟩ "x") ⟨[], "a.mp3"⟩ "y") ⟨[], "a.mp3"⟩ = some "y" :=
  (idempotent_overwrite { mem := [], disk := none }
    ⟨[], "a.mp3"⟩ "x" "y" (by decide)).1

/-- C5 (clear semantics): after any sequence of `set_file_id` calls
followed by `clear_file_id_db`, every lookup returns `none` and the store
file no longer exists; and clearing a state with no store file present is
not an error (the operation is total: `unlink(missing_ok=True)`). -/
theorem clear_semantics (s : CacheState) (puts : List (PyPath × String)) :
    (∀ q : PyPath,
        get_file_id (clear_file_id_db (applyPuts s puts)) q = none) ∧
    (clear_file_id_db (applyPuts s puts)).disk = none ∧
    clear_file_id_db { mem := s.mem, disk := none }
      = { mem := [], disk := none } :=
  ⟨fun _ => rfl, rfl, rfl⟩

/-- C6 (miss behavior and purity of get): `get_file_id` run as a Python
call raises no exception and leaves the module state exactly as it was —
no mutation, no store access, no load — returning the pure dict lookup;
and on a base name absent from the mapping it returns `none` (the absent
sentinel) rather than raising. -/
theorem get_purity_and_miss (s : CacheState) (p : PyPath) :
    get_file_id_run s p = .ok (get_file_id s p, s) ∧
    (p.name ∉ s.mem.map Prod.fst → get_file_id s p = none) :=
  ⟨rfl, fun h => dictGet_eq_none_of_not_mem _ _ h⟩

theorem get_purity_and_miss_witness :
    get_file_id { mem := [("Celts.mp3", "ABC123")], disk := none }
      ⟨[], "nonexistent.mp3"⟩ = none :=
  (get_purity_and_miss { mem := [("Celts.mp3", "ABC123")], disk := none }
    ⟨[], "nonexistent.mp3"⟩).2 (by decide)

/-- C7 (getAll returns a non-aliasing copy): for every heap whose cache
dict lives at a valid reference, `get_all_file_ids` returns a reference
to a dict equal to the entire in-memory mapping, and overwriting the
returned object with any contents whatsoever leaves the cache's own dict
unchanged, so every subsequent `get_file_id` result is unaffected. -/
theorem getall_copy_no_alias (h : Heap) (cacheRef : Nat)
    (dsk : Option FileContents) (hr : cacheRef < h.cells.length) :
    (h.get_all_file_ids cacheRef).1.read (h.get_all_file_ids cacheRef).2
      = h.read cacheRef ∧
    ∀ (d' : PyDict) (p : PyPath),
      get_file_id ⟨((h.get_all_file_ids cacheRef).1.write (h.get_all_file_ids cacheRef).2 d').read cacheRef, dsk⟩ p
        = get_file_id ⟨h.read cacheRef, dsk⟩ p := by
  constructor
  · exact getD_append_length _ _ _
  · intro d' p
    rw [show (h.get_all_file_ids cacheRef) = h.alloc (h.read cacheRef)
          from rfl,
        read_write_after_alloc h cacheRef _ d' hr]

theorem getall_copy_no_alias_witness :
    (Heap.get_all_file_ids ⟨[[("Celts.mp3", "ABC123")]]⟩ 0).1.read (Heap.get_all_file_ids ⟨[[("Celts.mp3", "ABC123")]]⟩ 0).2
      = Heap.read ⟨[[("Celts.mp3", "ABC123")]]⟩ 0 ∧
    get_file_id ⟨((Heap.get_all_file_ids ⟨[[("Celts.mp3", "ABC123")]]⟩ 0).1.write (Heap.get_all_file_ids ⟨[[("Celts.mp3", "ABC123")]]⟩ 0).2 []).read 0, none⟩ ⟨[], "Celts.mp3"⟩
      = get_file_id ⟨Heap.read ⟨[[("Celts.mp3", "ABC123")]]⟩ 0, none⟩ ⟨[], "Celts.mp3"⟩ :=
  ⟨(getall_copy_no_alias ⟨[[("Celts.mp3", "ABC123")]]⟩ 0 none (by decide)).1,
   (getall_copy_no_alias ⟨[[("Celts.mp3", "ABC123")]]⟩ 0 none (by decide)).2 [] ⟨[], "Celts.mp3"⟩⟩

/-- C8 (base-name keying): two paths sharing a base name are the same
cache key — after `set_file_id` on one, `get_file_id` on the other
returns the stored identifier, so same-named files in different
directories collide. -/
theorem base_name_collision (s : CacheState) (p1 p2 : PyPath) (i : String)
    (h : p1.name = p2.name) :
    get_file_id (set_file_id s p1 i) p2 = some i := by
  simp only [get_file_id, set_file_id, ← h]
  exact dictGet_dictInsert_self _ _ _

theorem base_name_collision_witness :
    get_file_id (set_file_id { mem := [], disk := none }
        ⟨["dirA"], "x.mp3"⟩ "ID1") ⟨["dirB"], "x.mp3"⟩ = some "ID1" :=
  base_name_collision { mem := [], disk := none }
    ⟨["dirA"], "x.mp3"⟩ ⟨["dirB"], "x.mp3"⟩ "ID1" rfl

/-- C9 (send-before-cache ordering): in every run of the `send_audio`
flow, no `set_file_id` happens before the awaited platform send has
completed, no upload is attempted before the cache has been consulted,
and whenever a `set_file_id` with identifier `i` occurs the platform
send succeeded and returned exactly `i`; hence a storage failure in
`set_file_id` can never precede, and so can never prevent, a completed
send. -/
theorem send_before_cache (s : CacheState) (audio_file : Option PyPath)
    (file_id : Option String) (sendRes : Except Unit String) :
    noPutBeforeSend (send_audio s audio_file file_id sendRes).trace
      = true ∧
    noUploadBeforeLookup (send_audio s audio_file file_id sendRes).trace
      = true ∧
    ∀ n i, Ev.cachePut n i ∈ (send_audio s audio_file file_id sendRes).trace →
      sendRes = .ok i := by
  rcases audio_file with _ | af <;> rcases file_id with _ | i <;>
    rcases sendRes with u | newId <;>
    simp only [send_audio, send_and_cache] <;>
    repeat' split
  all_goals
    simp_all [noPutBeforeSend, noUploadBeforeLookup]

theorem send_before_cache_witness :
    noPutBeforeSend (send_audio { mem := [], disk := none }
        (some ⟨[], "a.mp3"⟩) none (.ok "NEW")).trace = true ∧
    (Except.ok "NEW" : Except Unit String) = .ok "NEW" :=
  ⟨(send_before_cache { mem := [], disk := none }
      (some ⟨[], "a.mp3"⟩) none (.ok "NEW")).1,
   (send_before_cache { mem := [], disk := none }
      (some ⟨[], "a.mp3"⟩) none (.ok "NEW")).2.2 "a.mp3" "NEW" (by decide)⟩

/-- C10 (put before load discards persisted entries): `set_file_id` on an
empty in-memory mapping with a populated store on disk rewrites the store
to hold only the new entry, a subsequent `load_cache` is a no-op (the
mapping is now non-empty), and every other previously persisted base name
now looks up to `none` — the old entries are unrecoverable. -/
theorem put_before_load_discards (m : PyDict) (p : PyPath) (i : String) :
    (set_file_id { mem := [], disk := some (.json (.obj m)) } p i).mem
      = [(p.name, i)] ∧
    (set_file_id { mem := [], disk := some (.json (.obj m)) } p i).disk
      = some (.json (.obj [(p.name, i)])) ∧
    load_cache (set_file_id { mem := [], disk := some (.json (.obj m)) } p i)
      = .ok (set_file_id { mem := [], disk := some (.json (.obj m)) } p i) ∧
    ∀ q : PyPath, q.name ≠ p.name →
      get_file_id
        (set_file_id { mem := [], disk := some (.json (.obj m)) } p i) q
        = none := by
  refine ⟨rfl, rfl, ?_, ?_⟩
  · simp [load_cache, set_file_id, dictInsert]
  · intro q hq
    simp [get_file_id, set_file_id, dictInsert, dictGet, Ne.symm hq]

theorem put_before_load_discards_witness :
    get_file_id (set_file_id ⟨[], some (.json (.obj [("old.mp3", "OLD")]))⟩ ⟨[], "new.mp3"⟩ "NEW") ⟨[], "old.mp3"⟩ = none :=
  (put_before_load_discards [("old.mp3", "OLD")]
    ⟨[], "new.mp3"⟩ "NEW").2.2.2 ⟨[], "old.mp3"⟩ (by decide)

end Aoe2Bot
